import Mathlib

/-!
Verification development for the Agent-2 tax-comparison pipeline.

The Python sources are shallowly embedded as executable Lean definitions:

- string primitives mirror the Python `str` operations used by the code
  (find / rfind / slicing / upper / lower / strip, substring containment);
- JSON values are modelled by an inductive `JValue`; `jsonParse` models
  `json.loads` (strict mode) and `dumps` models `json.dumps` with its
  default separators;
- numbers are modelled in exact decimal form (`JNum`): an integer
  mantissa with a power-of-ten exponent, keeping Python's int / float
  distinction made by `json.loads`;
- the response-validation logic of `utils/ai_processor.analyze_with_openai`,
  the categorization and output generation of `utils/formatter.generate_outputs`,
  the extraction / report rendering of `utils/tax_comparison.py`, the premium
  backfill dispatch of `utils/tax_api_client.py`, and the rate display of
  `app.py` are each embedded as pure functions; filesystem and network
  effects are made explicit (written-file lists, success flags, injected
  collaborator responses).
-/

/-! ## Python string primitives -/

/-- Whitespace set of Python str.strip (space, tab, newline, return, vtab, formfeed). -/
def pyIsSpace (c : Char) : Bool :=
  c = ' ' || c = '\t' || c = '\n' || c = '\r' || c = Char.ofNat 11 || c = Char.ofNat 12

/-- Model of Python str.upper for the ASCII identifiers used by this code base. -/
def pyUpper (s : String) : String := String.mk (s.toList.map Char.toUpper)

/-- Model of Python str.lower for the ASCII identifiers used by this code base. -/
def pyLower (s : String) : String := String.mk (s.toList.map Char.toLower)

/-- Model of Python str.strip(). -/
def pyStrip (s : String) : String :=
  String.mk (((s.toList.dropWhile pyIsSpace).reverse.dropWhile pyIsSpace).reverse)

/-- Does the pattern occur at the head of the character list? -/
def startsWithAt : List Char → List Char → Bool
  | [], _ => true
  | _ :: _, [] => false
  | p :: ps, c :: cs => p = c && startsWithAt ps cs

/-- Does the pattern occur anywhere in the character list? -/
def hasSub (pat : List Char) : List Char → Bool
  | [] => pat.isEmpty
  | c :: cs => startsWithAt pat (c :: cs) || hasSub pat cs

/-- Model of the Python substring test (pat in s). -/
def strContains (s pat : String) : Bool := hasSub pat.toList s.toList

/-- Model of Python str.find for a single character: first index or -1. -/
def pyFind (s : String) (c : Char) : Int :=
  match s.toList.findIdx? (· = c) with
  | some i => (i : Int)
  | none => -1

/-- Model of Python str.rfind for a single character: last index or -1. -/
def pyRfind (s : String) (c : Char) : Int :=
  match s.toList.reverse.findIdx? (· = c) with
  | some i => (s.toList.length : Int) - 1 - (i : Int)
  | none => -1

/-- Python len on strings (number of characters). -/
def pyLen (s : String) : Nat := s.toList.length

/-- Python slice s[:n]. -/
def pyTake (s : String) (n : Nat) : String := String.mk (s.toList.take n)

/-- Python slice s[a:b] for 0 <= a <= b (the only case the embedded code reaches). -/
def pySlice (s : String) (a b : Int) : String :=
  String.mk ((s.toList.drop a.toNat).take (b - a).toNat)

/-- The opening curly brace character. -/
def lbraceChar : Char := Char.ofNat 123

/-- The closing curly brace character. -/
def rbraceChar : Char := Char.ofNat 125

/-! ## JSON data model (mirror of the values json.loads produces) -/

/-- Exact decimal numbers: int keeps Python int; dec m e stands for the float
m * 10 ^ e as parsed from a decimal literal. -/
inductive JNum where
  | int (n : Int)
  | dec (m : Int) (e : Int)
deriving DecidableEq

/-- Rational value of an embedded JSON number. -/
def JNum.toRat : JNum → ℚ
  | .int n => (n : ℚ)
  | .dec m e => (m : ℚ) * (10 : ℚ) ^ e

/-- JSON values as json.loads yields them (dict modelled as ordered field list). -/
inductive JValue where
  | null
  | bool (b : Bool)
  | num (n : JNum)
  | str (s : String)
  | arr (elems : List JValue)
  | obj (fields : List (String × JValue))

/-! ## Model of json.loads (strict JSON grammar, as the CPython decoder accepts it) -/

/-- JSON whitespace (the set the CPython decoder skips between tokens). -/
def jsonWs (c : Char) : Bool := c = ' ' || c = '\t' || c = '\n' || c = '\r'

/-- Skip JSON whitespace. -/
def skipWs (s : List Char) : List Char := s.dropWhile jsonWs

/-- Numeric value of a hex digit, if any. -/
def hexVal (c : Char) : Option Nat :=
  if '0' ≤ c && c ≤ '9' then some (c.toNat - 48)
  else if 'a' ≤ c && c ≤ 'f' then some (c.toNat - 87)
  else if 'A' ≤ c && c ≤ 'F' then some (c.toNat - 55)
  else none

/-- Single-character JSON string escapes. -/
def escChar (c : Char) : Option Char :=
  if c = '"' then some '"'
  else if c = '\\' then some '\\'
  else if c = '/' then some '/'
  else if c = 'b' then some (Char.ofNat 8)
  else if c = 'f' then some (Char.ofNat 12)
  else if c = 'n' then some '\n'
  else if c = 'r' then some '\r'
  else if c = 't' then some '\t'
  else none

/-- Parse the body of a JSON string after the opening quote; returns the decoded
string and the input past the closing quote. -/
def parseStrAux (acc : List Char) : List Char → Option (String × List Char)
  | [] => none
  | c :: r =>
    if c = '"' then some (String.mk acc.reverse, r)
    else if c = '\\' then
      match r with
      | [] => none
      | e :: r2 =>
        if e = 'u' then
          match r2 with
          | h1 :: h2 :: h3 :: h4 :: r3 =>
            match hexVal h1, hexVal h2, hexVal h3, hexVal h4 with
            | some a, some b, some c2, some d =>
              parseStrAux (Char.ofNat (4096 * a + 256 * b + 16 * c2 + d) :: acc) r3
            | _, _, _, _ => none
          | _ => none
        else
          match escChar e with
          | some ch => parseStrAux (ch :: acc) r2
          | none => none
    else if c.toNat < 32 then none
    else parseStrAux (c :: acc) r

/-- Decimal digits to a natural number. -/
def digitsToNat (ds : List Char) : Nat := ds.foldl (fun a c => 10 * a + (c.toNat - 48)) 0

/-- Assemble a parsed JSON number from sign, integer digits, fraction digits,
float flag, and base-ten exponent. -/
def mkJNum (neg : Bool) (ds fs : List Char) (isFloat : Bool) (exp : Int) : JNum :=
  let mag : Nat := digitsToNat (ds ++ fs)
  let m : Int := if neg then -(mag : Int) else (mag : Int)
  if isFloat then .dec m (exp - fs.length) else .int m

/-- Parse an optional exponent part and finish the number. -/
def parseExpPart (neg : Bool) (ds fs : List Char) (hasFrac : Bool) :
    List Char → Option (JNum × List Char)
  | c :: r =>
    if c = 'e' || c = 'E' then
      let (esign, r1) : Int × List Char :=
        match r with
        | '+' :: r2 => (1, r2)
        | '-' :: r2 => (-1, r2)
        | _ => (1, r)
      let (es, r2) := r1.span Char.isDigit
      if es.isEmpty then none
      else some (mkJNum neg ds fs true (esign * (digitsToNat es : Int)), r2)
    else some (mkJNum neg ds fs hasFrac 0, c :: r)
  | [] => some (mkJNum neg ds fs hasFrac 0, [])

/-- Parse a JSON number (JSON grammar: optional minus, no leading zeros,
optional fraction, optional exponent). -/
def parseNum (s : List Char) : Option (JNum × List Char) :=
  let (neg, s1) : Bool × List Char :=
    match s with
    | '-' :: r => (true, r)
    | _ => (false, s)
  let (ds, s2) := s1.span Char.isDigit
  if ds.isEmpty then none
  else if ds.length > 1 && ds.head? == some '0' then none
  else
    match s2 with
    | '.' :: r =>
      let (fs, s3) := r.span Char.isDigit
      if fs.isEmpty then none else parseExpPart neg ds fs true s3
    | _ => parseExpPart neg ds [] false s2

mutual

/-- Parse one JSON value (fuelled recursion; jsonParse supplies ample fuel). -/
def parseValue : Nat → List Char → Option (JValue × List Char)
  | 0, _ => none
  | Nat.succ fuel, s =>
    match skipWs s with
    | 'n' :: 'u' :: 'l' :: 'l' :: r => some (.null, r)
    | 't' :: 'r' :: 'u' :: 'e' :: r => some (.bool true, r)
    | 'f' :: 'a' :: 'l' :: 's' :: 'e' :: r => some (.bool false, r)
    | '"' :: r =>
      match parseStrAux [] r with
      | some (str, r2) => some (.str str, r2)
      | none => none
    | '[' :: r =>
      match skipWs r with
      | ']' :: r2 => some (.arr [], r2)
      | r2 => parseElems fuel r2 []
    | c :: r =>
      if c = lbraceChar then
        match skipWs r with
        | d :: r2 =>
          if d = rbraceChar then some (.obj [], r2)
          else parseFields fuel (d :: r2) []
        | [] => none
      else
        match parseNum (c :: r) with
        | some (n, r2) => some (.num n, r2)
        | none => none
    | [] => none

/-- Parse the comma-separated elements of a non-empty JSON array. -/
def parseElems : Nat → List Char → List JValue → Option (JValue × List Char)
  | 0, _, _ => none
  | Nat.succ fuel, s, acc =>
    match parseValue fuel s with
    | none => none
    | some (v, r) =>
      match skipWs r with
      | ',' :: r2 => parseElems fuel r2 (acc ++ [v])
      | ']' :: r2 => some (.arr (acc ++ [v]), r2)
      | _ => none

/-- Parse the key-value fields of a non-empty JSON object. -/
def parseFields : Nat → List Char → List (String × JValue) → Option (JValue × List Char)
  | 0, _, _ => none
  | Nat.succ fuel, s, acc =>
    match skipWs s with
    | '"' :: r =>
      match parseStrAux [] r with
      | none => none
      | some (key, r1) =>
        match skipWs r1 with
        | ':' :: r2 =>
          match parseValue fuel r2 with
          | none => none
          | some (v, r3) =>
            match skipWs r3 with
            | ',' :: r4 => parseFields fuel r4 (acc ++ [(key, v)])
            | d :: r4 =>
              if d = rbraceChar then some (.obj (acc ++ [(key, v)]), r4)
              else none
            | [] => none
        | _ => none
    | _ => none

end

/-- Model of json.loads: parse one value and require the input be consumed
(up to trailing whitespace), exactly as the CPython decoder does. -/
def jsonParse (s : String) : Option JValue :=
  match parseValue (2 * s.toList.length + 2) s.toList with
  | some (v, rest) => if (skipWs rest).isEmpty then some v else none
  | none => none

/-! ## Model of json.dumps (default separators, ensure_ascii) -/

/-- Hex digit character (lowercase, as the CPython encoder emits). -/
def hexDigitChar (n : Nat) : Char :=
  if n < 10 then Char.ofNat (48 + n) else Char.ofNat (87 + n)

/-- Four-digit hex string for a unicode escape. -/
def hex4 (n : Nat) : String :=
  String.mk [hexDigitChar (n / 4096 % 16), hexDigitChar (n / 256 % 16),
             hexDigitChar (n / 16 % 16), hexDigitChar (n % 16)]

/-- Encode one character of a JSON string as json.dumps does. -/
def dumpChar (c : Char) : String :=
  if c = '"' then "\\\""
  else if c = '\\' then "\\\\"
  else if c = '\n' then "\\n"
  else if c = '\r' then "\\r"
  else if c = '\t' then "\\t"
  else if c = Char.ofNat 8 then "\\b"
  else if c = Char.ofNat 12 then "\\f"
  else if c.toNat < 32 || 126 < c.toNat then "\\u" ++ hex4 c.toNat
  else String.mk [c]

/-- Encode a string literal as json.dumps does. -/
def dumpString (s : String) : String :=
  "\"" ++ String.join (s.toList.map dumpChar) ++ "\""

/-- Digits of a natural number (fuelled; fuel n + 1 always suffices). -/
def natToStrAux : Nat → Nat → List Char → List Char
  | 0, _, acc => acc
  | Nat.succ fuel, n, acc =>
    if n = 0 then acc else natToStrAux fuel (n / 10) (Char.ofNat (48 + n % 10) :: acc)

/-- Decimal rendering of a natural number. -/
def natToStr (n : Nat) : String :=
  if n = 0 then "0" else String.mk (natToStrAux (n + 1) n [])

/-- Decimal rendering of an integer. -/
def intToStr (i : Int) : String :=
  if i < 0 then "-" ++ natToStr i.natAbs else natToStr i.natAbs

/-- Remove trailing zero characters. -/
def stripTrailingZeros (l : List Char) : List Char :=
  (l.reverse.dropWhile (· = '0')).reverse

/-- Left-pad a digit list with zeros to the given width. -/
def padZeros (l : List Char) (k : Nat) : List Char :=
  List.replicate (k - l.length) '0' ++ l

/-- Render a JSON number the way json.dumps renders the corresponding Python
value; float rendering is the plain decimal expansion (adequate for the
magnitudes this code base handles). -/
def dumpNum : JNum → String
  | .int n => intToStr n
  | .dec m e =>
    if 0 ≤ e then intToStr (m * (10 : Int) ^ e.toNat) ++ ".0"
    else
      let k := (-e).toNat
      let mag := m.natAbs
      let ip := mag / 10 ^ k
      let fp := mag % 10 ^ k
      let fracDigits := stripTrailingZeros (padZeros (natToStr fp).toList k)
      let fracStr := if fracDigits.isEmpty then "0" else String.mk fracDigits
      (if m < 0 then "-" else "") ++ natToStr ip ++ "." ++ fracStr

mutual

/-- Model of json.dumps with its default separators. -/
def dumps : JValue → String
  | .null => "null"
  | .bool true => "true"
  | .bool false => "false"
  | .num n => dumpNum n
  | .str s => dumpString s
  | .arr xs => "[" ++ dumpElems xs ++ "]"
  | .obj fs => "\x7b" ++ dumpFieldList fs ++ "\x7d"

/-- Serialize array elements joined by the default item separator. -/
def dumpElems : List JValue → String
  | [] => ""
  | [v] => dumps v
  | v :: rest => dumps v ++ ", " ++ dumpElems rest

/-- Serialize object fields joined by the default separators. -/
def dumpFieldList : List (String × JValue) → String
  | [] => ""
  | [(k, v)] => dumpString k ++ ": " ++ dumps v
  | (k, v) :: rest => dumpString k ++ ": " ++ dumps v ++ ", " ++ dumpFieldList rest

end

/-! ## utils/ai_processor.py : analyze_with_openai response processing

The section models lines 74-133: locating the JSON array between the first
opening bracket and the last closing bracket, parsing it, validating that it
is a non-empty list whose items all carry the required keys, and the exact
error dictionaries returned otherwise. -/

/-- Required keys checked for every extracted item (ai_processor.py line 105). -/
def requiredKeys : List String := ["type", "2023", "2024", "difference"]

/-- Model of the Python membership test k in item. For a dict it is a key
test, for a string a substring test, for a list an element test; any other
type raises TypeError (modelled as none). -/
def keyIn (k : String) : JValue → Option Bool
  | .obj fs => some (fs.any (fun p => p.1 = k))
  | .str s => some (strContains s k)
  | .arr xs => some (xs.any (fun v => match v with | .str s => s = k | _ => false))
  | _ => none

/-- Test the keys one after the other, stopping at the first failure. -/
def allKeysInAux (item : JValue) : List String → Option Bool
  | [] => some true
  | k :: ks =>
    match keyIn k item with
    | none => none
    | some false => some false
    | some true => allKeysInAux item ks

/-- Model of all(k in item for k in requiredKeys): lazily tests each key,
stopping at the first failure; none models a raised TypeError. -/
def allKeysIn (item : JValue) : Option Bool := allKeysInAux item requiredKeys

/-- Model of the validation loop (ai_processor.py lines 103-107): visits every
item in order, collecting the index of each item that fails the required-key
check (those are the items the loop logs); none models a TypeError escaping
the loop. -/
def scanItems (i : Nat) : List JValue → Option (List Nat)
  | [] => some []
  | item :: rest =>
    match allKeysIn item with
    | none => none
    | some ok =>
      match scanItems (i + 1) rest with
      | none => none
      | some l => some (if ok then l else i :: l)

/-- Truncated raw-response sample used by the format-error returns
(content[:200] + "..." when the response is longer than 200 characters). -/
def pyTrunc (content : String) : String :=
  if pyLen content > 200 then pyTake content 200 ++ "..." else content

/-- Result of analyze_with_openai response processing: the ok constructor is
the structured-data + reasoning dictionary, error is a dictionary carrying an
error message and a raw_response sample, and apiError is the outer
except-branch return (its message interpolates the raised exception). -/
inductive AnalyzeResult where
  | ok (structured : List JValue) (reasoning : String)
  | error (msg : String) (raw : String)
  | apiError

/-- Bracket condition of ai_processor.py line 83:
start_idx >= 0 and end_idx > start_idx. -/
def bracketCond (content : String) : Bool :=
  pyFind content '[' ≥ 0 && pyRfind content ']' + 1 > pyFind content '['

/-- The bracket-delimited substring content[start_idx:end_idx]. -/
def bracketSlice (content : String) : String :=
  pySlice content (pyFind content '[') (pyRfind content ']' + 1)

/-- The captured reasoning preamble content[:start_idx].strip(). -/
def reasoningOf (content : String) : String :=
  pyStrip (pyTake content (pyFind content '[').toNat)

/-- Model of the response processing of analyze_with_openai
(ai_processor.py lines 79-130). -/
def processReactResponse (content : String) : AnalyzeResult :=
  if bracketCond content then
    match jsonParse (bracketSlice content) with
    | none => .error "Invalid JSON in response" (pyTrunc content)
    | some structuredData =>
      match structuredData with
      | .arr items =>
        if items.length = 0 then
          .error "Received empty JSON array" (pyTake content 200)
        else
          match scanItems 0 items with
          | none => .apiError
          | some offenders =>
            if offenders.isEmpty then .ok items (reasoningOf content)
            else .error "JSON items missing required fields" (pyTake content 200)
      | _ => .error "Response is not a JSON array" (pyTake content 200)
  else
    .error "Could not find valid JSON array in response" (pyTrunc content)

/-- The offending-item indices the validation loop produces for a response,
when the pipeline reaches the loop (helper for stating claims about the
loop's completeness). -/
def responseOffenders (content : String) : Option (List Nat) :=
  if bracketCond content then
    match jsonParse (bracketSlice content) with
    | some (.arr items) => if items.length = 0 then none else scanItems 0 items
    | _ => none
  else none

/-! ## utils/tax_comparison.py : analyze_tax_returns_with_ai ingestion

Model of lines 299-314: the model response is scanned for the first opening
curly brace and last closing brace, the slice is parsed, and the parsed
comparison data is returned as is (a json.JSONDecodeError propagates to the
outer handler, line 316). -/

/-- Outcome of ingesting the comparison response. -/
inductive IngestResult where
  | ok (comparisonData : JValue)
  | error (msg : String)

/-- Model of the response ingestion of analyze_tax_returns_with_ai
(tax_comparison.py lines 302-314). -/
def ingestComparison (content : String) : IngestResult :=
  let jsonStart := pyFind content lbraceChar
  let jsonEnd := pyRfind content rbraceChar + 1
  if jsonStart ≥ 0 && jsonEnd > jsonStart then
    match jsonParse (pySlice content jsonStart jsonEnd) with
    | some comparisonData => .ok comparisonData
    | none => .error "Failed to analyze tax returns"
  else .error "Could not extract comparison data from AI response"

/-- Look up a key in a parsed JSON object (Python dict indexing; for the
duplicate-free objects this pipeline sees, the first binding is the value). -/
def JValue.lookup (k : String) : JValue → Option JValue
  | .obj fs =>
    match fs.find? (fun p => p.1 = k) with
    | some p => some p.2
    | none => none
  | _ => none

/-! ## Python numeric formatting on exact decimals -/

/-- Mantissa and exponent view of a JSON number. -/
def JNum.mantExp : JNum → Int × Int
  | .int n => (n, 0)
  | .dec m e => (m, e)

/-- Is the value strictly positive (sign of the mantissa, since powers of ten
are positive)? -/
def JNum.isPos : JNum → Bool
  | .int n => 0 < n
  | .dec m _ => 0 < m

/-- Is the value strictly negative? -/
def JNum.isNeg : JNum → Bool
  | .int n => n < 0
  | .dec m _ => m < 0

/-- Absolute value. -/
def JNum.abs : JNum → JNum
  | .int n => .int |n|
  | .dec m e => .dec |m| e

/-- Exact comparison of the value with the integer k. -/
def JNum.ltInt (x : JNum) (k : Int) : Bool :=
  let (m, e) := x.mantExp
  if 0 ≤ e then m * 10 ^ e.toNat < k else m < k * 10 ^ (-e).toNat

/-- Multiplication by 100 (exact). -/
def JNum.mul100 : JNum → JNum
  | .int n => .int (n * 100)
  | .dec m e => .dec m (e + 2)

/-- The value rounded to hundredths (round half to even, as Python's float
formatting rounds), returned as an integer count of hundredths. -/
def roundHundredths (x : JNum) : Int :=
  let (m, e) := x.mantExp
  let e2 := e + 2
  if 0 ≤ e2 then m * 10 ^ e2.toNat
  else
    let d : Int := 10 ^ (-e2).toNat
    let q := Int.fdiv m d
    let r := m - q * d
    if 2 * r < d then q
    else if 2 * r > d then q + 1
    else if q % 2 = 0 then q else q + 1

/-- Two fraction digits of a hundredths count. -/
def twoDigits (a : Nat) : String := String.mk (padZeros (natToStr (a % 100)).toList 2)

/-- Model of the Python format f-string spec .2f (fixed two decimal places;
the sign follows the sign of the value, as float formatting keeps a negative
sign even when the digits round to zero). -/
def fmt2 (x : JNum) : String :=
  let h := roundHundredths x
  (if x.isNeg then "-" else "") ++ (natToStr (h.natAbs / 100) ++ "." ++ twoDigits h.natAbs)

/-- Insert thousands separators into a reversed digit list. -/
def group3Aux : List Char → List Char
  | a :: b :: c :: d :: rest => a :: b :: c :: ',' :: group3Aux (d :: rest)
  | l => l

/-- Decimal rendering of a natural number with thousands separators. -/
def commaNat (n : Nat) : String :=
  String.mk (group3Aux (natToStr n).toList.reverse).reverse

/-- Model of the Python format spec ,.2f (thousands separators, two decimals). -/
def fmtComma2 (x : JNum) : String :=
  let h := roundHundredths x
  (if x.isNeg then "-" else "") ++ (commaNat (h.natAbs / 100) ++ "." ++ twoDigits h.natAbs)

/-- Model of the Python format spec , with no precision: ints get grouped
digits, floats get their decimal expansion with a grouped integer part. -/
def pyCommaRepr : JNum → String
  | .int n => (if n < 0 then "-" else "") ++ commaNat n.natAbs
  | .dec m e =>
    if 0 ≤ e then
      (if m < 0 then "-" else "") ++ commaNat (m * (10 : Int) ^ e.toNat).natAbs ++ ".0"
    else
      let k := (-e).toNat
      let mag := m.natAbs
      let fracDigits := stripTrailingZeros (padZeros (natToStr (mag % 10 ^ k)).toList k)
      let fracStr := if fracDigits.isEmpty then "0" else String.mk fracDigits
      (if m < 0 then "-" else "") ++ commaNat (mag / 10 ^ k) ++ "." ++ fracStr

/-! ## utils/formatter.py : categorization (generate_outputs lines 80-116) -/

/-- The ordered bucket table of generate_outputs (formatter.py lines 99-107):
each bucket name with its ordered name-fragment match list. -/
def bucketTable : List (String × List String) :=
  [("PERSONAL INFORMATION", ["FILING", "DEPENDENT"]),
   ("INCOME", ["WAGES", "INTEREST", "DIVIDEND", "BUSINESS", "CAPITAL", "RENTAL", "TOTAL_INCOME"]),
   ("ADJUSTMENTS", ["IRA_DEDUCTION", "STUDENT", "SELF_EMPLOYED", "HEALTH", "ADJUSTMENT", "ADJUSTED_GROSS"]),
   ("DEDUCTIONS", ["MEDICAL", "STATE", "TAX", "MORTGAGE", "CHARITABLE", "DEDUCTION"]),
   ("TAX CALCULATION", ["TAXABLE", "LIABILITY", "ALTERNATIVE", "CALCULATION"]),
   ("CREDITS", ["CREDIT"]),
   ("PAYMENTS", ["WITHHELD", "ESTIMATED", "PAYMENT", "REFUND"]),
   ("FINAL OUTCOMES", ["TOTAL_TAX", "OVERPAYMENT", "REFUND", "AMOUNT_OWED", "EFFECTIVE", "MARGINAL"])]

/-- Bucket names in declared dictionary order (formatter.py lines 81-91). -/
def allGroupNames : List String := bucketTable.map Prod.fst ++ ["OTHER"]

/-- Does the uppercased identifier contain any fragment of the bucket
(formatter.py line 109)? -/
def matchesBucket (t : String) (frags : List String) : Bool :=
  frags.any (fun p => strContains (pyUpper t) p)

/-- First-match-wins scan over the bucket table, falling back to OTHER
(formatter.py lines 98-116). -/
def assignBucket : List (String × List String) → String → String
  | [], _ => "OTHER"
  | (name, frags) :: rest, t => if matchesBucket t frags then name else assignBucket rest t

/-- The bucket a category identifier is assigned to. -/
def categorize (t : String) : String := assignBucket bucketTable t

/-- A validated metric record: generate_outputs reaches the grouping loop only
after checking every item is a dict with the four required keys; grouping
itself reads only the type field. -/
structure Metric where
  type : String
  y2023 : JNum
  y2024 : JNum
  difference : JNum
deriving DecidableEq

/-- The category_groups dictionary in its initial state (all buckets empty). -/
def initGroups : List (String × List Metric) := allGroupNames.map (fun n => (n, []))

/-- Append an item to the named bucket of the groups dictionary. -/
def addToGroup (gs : List (String × List Metric)) (name : String) (it : Metric) :
    List (String × List Metric) :=
  gs.map (fun p => if p.1 = name then (p.1, p.2 ++ [it]) else p)

/-- The sorting loop of generate_outputs (lines 94-116): each item is appended
to the first bucket whose fragment list matches, or to OTHER. -/
def sortItems (items : List Metric) : List (String × List Metric) :=
  items.foldl (fun gs it => addToGroup gs (categorize it.type) it) initGroups

/-- The groups the PDF rendering loop actually draws (line 130: only show
categories with data), in declared order. -/
def renderedGroups (items : List Metric) : List (String × List Metric) :=
  (sortItems items).filter (fun p => !p.2.isEmpty)

/-! ## utils/formatter.py : input validation and artifact generation -/

/-- Is the value exactly zero? -/
def JNum.isZero : JNum → Bool
  | .int n => n = 0
  | .dec m _ => m = 0

/-- Python truthiness of a JSON value. -/
def pyTruthy : JValue → Bool
  | .null => false
  | .bool b => b
  | .num n => !n.isZero
  | .str s => !s.toList.isEmpty
  | .arr xs => !xs.isEmpty
  | .obj fs => !fs.isEmpty

/-- Is the value a Python dict? -/
def isDict : JValue → Bool
  | .obj _ => true
  | _ => false

/-- The item loop of generate_outputs (lines 27-31): raises at the first item
that is not a dict or lacks a required key. -/
def datasetItemError : List JValue → Option String
  | [] => none
  | item :: rest =>
    if !isDict item then some "Expected dict but got other type"
    else
      match allKeysIn item with
      | some true => datasetItemError rest
      | _ => some "Missing required fields in item"

/-- The input validation of generate_outputs (formatter.py lines 16-31),
returning the message of the ValueError it raises, if any. -/
def validateDataset (input : JValue) : Option String :=
  if pyTruthy input = false then some "No data received for output generation"
  else
    match input with
    | .arr items =>
      if items.length = 0 then some "Received empty data list"
      else datasetItemError items
    | _ => some "Expected list but got other type"

/-- Model of generate_outputs (formatter.py lines 13-211) at the artifact
level: the JSON record, the spreadsheet, and the PDF are written in that
order; excelOk and pdfOk inject environmental failure of the later write
steps; the first component is the list of files present on disk when the
function returns or raises (the except branch re-raises without cleanup), the
second is some paths on success and none when the function raises. -/
def generateOutputs (input : JValue) (ts : String) (excelOk pdfOk : Bool) :
    List String × Option (List String) :=
  match validateDataset input with
  | some _ => ([], none)
  | none =>
    let jsonPath := "outputs/output_" ++ ts ++ ".json"
    if excelOk = false then ([jsonPath], none)
    else
      let excelPath := "outputs/summary_comparison_" ++ ts ++ ".xlsx"
      if pdfOk = false then ([jsonPath, excelPath], none)
      else
        let pdfPath := "outputs/tax_report_" ++ ts ++ ".pdf"
        ([jsonPath, excelPath, pdfPath], some [jsonPath, excelPath, pdfPath])

/-- Render colors used by both PDF renderers. -/
inductive DiffColor where
  | green
  | red
  | black
deriving DecidableEq

/-- The difference cell of the summary PDF (formatter.py lines 152-165):
sign and color depend only on the sign of the difference, never on the
metric type. -/
def formatterDiffCell (diff : JNum) : DiffColor × String :=
  if diff.isPos then (.green, "+$" ++ pyCommaRepr diff)
  else if diff.isNeg then (.red, "-$" ++ pyCommaRepr diff.abs)
  else (.black, "$0")

/-! ## utils/tax_comparison.py : create_comparison_report rendering -/

/-- Does the metric label indicate a rate (create_comparison_report lines
405-416: the test is "rate" in label.lower())? -/
def labelIsRate (label : String) : Bool := strContains (pyLower label) "rate"

/-- The polarity test of create_comparison_report lines 423-424:
higher is better unless the label mentions tax or liability. -/
def betterWhenHigher (label : String) : Bool :=
  !(strContains (pyLower label) "tax" || strContains (pyLower label) "liability")

/-- A year-value cell of the comparison report (lines 404-418): currency with
two decimals, or the raw value with two decimals and a percent sign for
rate-labelled metrics — no scaling is applied in either case. -/
def reportValueCell (label : String) (v : JNum) : String :=
  if !labelIsRate label then "$" ++ fmtComma2 v else fmt2 v ++ "%"

/-- The color of the difference cell of the comparison report (lines 421-430). -/
def reportDiffColor (label : String) (diff : JNum) : DiffColor :=
  if (diff.isPos && betterWhenHigher label) || (diff.isNeg && !betterWhenHigher label) then
    .green
  else if (diff.isNeg && betterWhenHigher label) || (diff.isPos && !betterWhenHigher label) then
    .red
  else .black

/-- The text of the difference cell of the comparison report (lines 432-437). -/
def reportDiffText (label : String) (diff : JNum) : String :=
  let sign := if diff.isPos then "+" else ""
  if labelIsRate label then sign ++ (fmt2 diff ++ "%")
  else sign ++ ("$" ++ fmtComma2 diff)

/-! ## app.py : effective-rate display (lines 110-116 and 144-150) -/

/-- The rate display of app.py: values below one are taken as fractions and
scaled by 100, values of one or more are taken as percentage points. -/
def appRateDisplay (rate : JNum) : String :=
  if rate.ltInt 1 then fmt2 rate.mul100 ++ "%" else fmt2 rate ++ "%"

/-! ## utils/tax_comparison.py : temporary-file discipline (lines 76-153) -/

/-- Outcome of a document extraction. -/
inductive DocResult where
  | ok (textContent : String) (pageCount : Nat)
  | error

/-- Concatenate page or paragraph texts, newline after each. -/
def joinNL (ps : List String) : String := String.join (ps.map (fun p => p ++ "\n"))

/-- Model of extract_tax_data_from_pdf (lines 76-109): the uploaded bytes are
written to a temporary file, text is extracted page by page, and the
temporary file is removed on the success path only; pages = none models
PdfReader or extract_text raising, which the except branch turns into an
error return. The first component records whether the temporary file is
still on disk when the function returns. -/
def extractTaxDataFromPdf (pages : Option (List String)) : Bool × DocResult :=
  match pages with
  | some ps => (false, .ok (joinNL ps) ps.length)
  | none => (true, .error)

/-- The flattened text a DOCX yields (paragraphs, then table cells joined with
a trailing separator per cell and a newline per row; lines 130-141). -/
def docxText (paras : List String) (tables : List (List (List String))) : String :=
  joinNL paras ++
    String.join (tables.map (fun t =>
      String.join (t.map (fun row =>
        String.join (row.map (fun cell => cell ++ " | ")) ++ "\n"))))

/-- Model of extract_tax_data_from_docx (lines 111-153), with the same
temporary-file bookkeeping as the PDF variant; doc = none models the
Document constructor or text access raising. -/
def extractTaxDataFromDocx (doc : Option (List String × List (List (List String)))) :
    Bool × DocResult :=
  match doc with
  | some (paras, tables) => (false, .ok (docxText paras tables) paras.length)
  | none => (true, .error)

/-! ## utils/tax_api_client.py : premium backfill (lines 71-190) -/

/-- The placeholder marker (tax_api_client.py line 98). -/
def premiumMarker : String := "premium subscription required"

/-- Model of contains_premium_fields (lines 95-98): case-insensitive substring
search over the serialized response. -/
def containsPremiumFields (taxResult : JValue) : Bool :=
  strContains (pyLower (dumps taxResult)) premiumMarker

/-- The disclosure note added on successful enhancement (line 176). -/
def premiumNote : String :=
  "Some values in this response were estimated by AI as they require a premium subscription in the original API."

/-- Python dict assignment d[k] = v on an ordered field list. -/
def setKey (fs : List (String × JValue)) (k : String) (v : JValue) :
    List (String × JValue) :=
  if fs.any (fun p => p.1 = k) then fs.map (fun p => if p.1 = k then (k, v) else p)
  else fs ++ [(k, v)]

/-- Model of enhance_with_openai (lines 100-190): openaiKeyPresent = false is
the missing-credential early return (line 115); modelContent = none models
the API call raising (line 188); a parsed non-object makes the note
assignment raise, which the outer handler turns into the original result;
in every fallback case the original placeholder-bearing response is
returned unchanged. -/
def enhanceWithOpenai (taxResult : JValue) (openaiKeyPresent : Bool)
    (modelContent : Option String) : JValue :=
  if !openaiKeyPresent then taxResult
  else
    match modelContent with
    | none => taxResult
    | some content =>
      let jsonStart := pyFind content lbraceChar
      let jsonEnd := pyRfind content rbraceChar + 1
      if jsonStart ≥ 0 && jsonEnd > jsonStart then
        match jsonParse (pySlice content jsonStart jsonEnd) with
        | some (.obj fs) => .obj (setKey fs "note" (.str premiumNote))
        | some _ => taxResult
        | none => taxResult
      else taxResult

/-- Model of the premium dispatch inside calculate_tax (lines 77-83): the
backfill pass runs exactly when the serialized response contains the marker;
the first component records whether the backfill was invoked. -/
def calculateTaxDispatch (taxResult : JValue) (openaiKeyPresent : Bool)
    (modelContent : Option String) : Bool × JValue :=
  if containsPremiumFields taxResult then
    (true, enhanceWithOpenai taxResult openaiKeyPresent modelContent)
  else (false, taxResult)

/-! ## Concrete inputs used by the claim witnesses and counterexamples -/

/-- The bucket dictionary as an association over names (proof scaffolding for
the fold characterization of sortItems). -/
def mapGroups (f : String → List Metric) : List (String × List Metric) :=
  allGroupNames.map (fun n => (n, f n))

/-- Two hundred filler characters, shared 200-character head of the two
schema-error responses below. -/
def fillerA : String := String.mk (List.replicate 200 'a')

/-- A model response with one schema-violating element, after 200 filler
characters. -/
def c3inputOne : String := fillerA ++ "[\x7b\"type\": 1\x7d]"

/-- A model response with two schema-violating elements, sharing its first
200 characters with c3inputOne. -/
def c3inputTwo : String := fillerA ++ "[\x7b\"type\": 1\x7d, \x7b\"x\": 2\x7d]"

/-- A comparison-engine model response whose metric carries a difference label
that contradicts the year values (99 instead of 2 - 1). -/
def c1reportContent : String :=
  "x \x7b\"key_metrics\": [\x7b\"label\": \"Total Income\", \"previous_year\": 1, \"current_year\": 2, \"difference\": 99\x7d]\x7d y"

/-- The metric object embedded in c1reportContent, as json.loads parses it. -/
def c1metric : JValue :=
  .obj [("label", .str "Total Income"), ("previous_year", .num (.int 1)),
        ("current_year", .num (.int 2)), ("difference", .num (.int 99))]

/-- The comparison data embedded in c1reportContent, as json.loads parses it. -/
def c1payload : JValue := .obj [("key_metrics", .arr [c1metric])]

/-- An extractor model response whose item carries a difference label that
contradicts the year values. -/
def c1reactContent : String :=
  "note [\x7b\"type\": \"TOTAL_INCOME\", \"2023\": 1, \"2024\": 2, \"difference\": 99\x7d]"

/-- The item embedded in c1reactContent, as json.loads parses it. -/
def c1reactItem : JValue :=
  .obj [("type", .str "TOTAL_INCOME"), ("2023", .num (.int 1)),
        ("2024", .num (.int 2)), ("difference", .num (.int 99))]

/-- A well-formed one-record dataset for the output-generation scenarios. -/
def validDataset : JValue :=
  .arr [.obj [("type", .str "WAGES"), ("2023", .num (.int 1)),
              ("2024", .num (.int 2)), ("difference", .num (.int 1))]]

/-- A calculator response carrying the premium placeholder in a field. -/
def premiumResponse : JValue :=
  .obj [("federal_taxes_owed", .str "premium subscription required")]

/-- The WAGES record of the end-to-end sample dataset. -/
def wagesMetric : Metric := ⟨"WAGES", .int 75000, .int 80000, .int 5000⟩

/-- A record matching no bucket fragment. -/
def otherMetric : Metric := ⟨"XYZZY", .int 1, .int 2, .int 1⟩

/-- A two-record dataset exercising the grouping loop. -/
def c4items : List Metric := [wagesMetric, otherMetric]

/-- A well-formed extractor response used by the validator witness. -/
def c2okContent : String :=
  "Reasoning first. [\x7b\"type\": \"WAGES\", \"2023\": 75000, \"2024\": 80000, \"difference\": 5000\x7d] end"

/-- The item embedded in c2okContent, as json.loads parses it. -/
def c2okItem : JValue :=
  .obj [("type", .str "WAGES"), ("2023", .num (.int 75000)),
        ("2024", .num (.int 80000)), ("difference", .num (.int 5000))]

/-! # Supporting lemmas for the categorization engine -/

lemma addToGroup_mapGroups (f : String → List Metric) (name : String) (it : Metric) :
    addToGroup (mapGroups f) name it
      = mapGroups (fun n => f n ++ if n = name then [it] else []) := by
  unfold addToGroup mapGroups
  rw [List.map_map]
  apply List.map_congr_left
  intro n _
  by_cases hn : n = name
  · simp [hn]
  · simp [hn]

lemma foldl_sortLoop (items : List Metric) (f : String → List Metric) :
    List.foldl (fun gs it => addToGroup gs (categorize it.type) it) (mapGroups f) items
      = mapGroups (fun n => f n ++ items.filter (fun it => categorize it.type = n)) := by
  induction items generalizing f with
  | nil => simp [mapGroups]
  | cons it rest ih =>
    rw [List.foldl_cons, addToGroup_mapGroups, ih]
    unfold mapGroups
    apply List.map_congr_left
    intro n _
    by_cases hc : categorize it.type = n
    · subst hc
      simp [List.filter_cons]
    · have hc2 : ¬ n = categorize it.type := fun h => hc h.symm
      simp [List.filter_cons, hc, hc2]

lemma sortItems_eq (items : List Metric) :
    sortItems items = mapGroups (fun n => items.filter (fun it => categorize it.type = n)) := by
  have hinit : initGroups = mapGroups (fun _ => []) := rfl
  unfold sortItems
  rw [hinit, foldl_sortLoop]
  simp [mapGroups]

lemma map_fst_pair {F : String → List Metric} (l : List String) :
    (l.map (fun n => (n, F n))).map Prod.fst = l := by
  induction l with
  | nil => rfl
  | cons a t ih => simp [ih]

lemma mapGroups_filter_fst (F : String → List Metric) (l : List String) :
    ((l.map (fun n => (n, F n))).filter (fun p => !p.2.isEmpty)).map Prod.fst
      = l.filter (fun n => !(F n).isEmpty) := by
  induction l with
  | nil => rfl
  | cons a t ih =>
    by_cases h : (F a).isEmpty = true
    · simp [List.filter_cons, h, ih]
    · simp only [Bool.not_eq_true] at h
      simp [List.filter_cons, h, ih]

lemma assignBucket_mem_concat (t : String) (pre post : List (String × List String))
    (name : String) (frags : List String) (h : matchesBucket t frags = true) :
    assignBucket (pre ++ (name, frags) :: post) t ∈ pre.map Prod.fst ++ [name] := by
  induction pre with
  | nil => simp [assignBucket, h]
  | cons hd tl ih =>
    simp only [List.cons_append, assignBucket]
    by_cases hm : matchesBucket t hd.2 = true
    · simp [hm]
    · simp only [hm, if_false]
      simp only [List.map_cons, List.cons_append, List.mem_cons]
      exact Or.inr ih

/-! # C4 : deterministic total categorization, first match wins, fixed render
order, empty buckets omitted -/

/-- C4: categorization is a deterministic total function (a pure Lean function
of the record's type identifier): every record lands in a bucket of the
taxonomy, records matching no fragment land in OTHER, the groups dictionary
always lists the buckets in their fixed declared order, the bucket holding a
record is exactly the first-match bucket of its identifier, rendering keeps
the declared order while dropping exactly the empty buckets, and no rendered
bucket is empty. Running the grouping twice on the same dataset is the same
function application, hence yields identical assignment. -/
theorem c4_categorization (items : List Metric) :
    (∀ it : Metric, categorize it.type ∈ allGroupNames)
    ∧ (∀ t : String, (∀ p ∈ bucketTable, matchesBucket t p.2 = false) → categorize t = "OTHER")
    ∧ (sortItems items).map Prod.fst = allGroupNames
    ∧ (∀ n l, (n, l) ∈ sortItems items → l = items.filter (fun it => categorize it.type = n))
    ∧ (renderedGroups items).map Prod.fst
        = allGroupNames.filter (fun n => !(items.filter (fun it => categorize it.type = n)).isEmpty)
    ∧ (∀ p ∈ renderedGroups items, p.2 ≠ []) := by
  refine ⟨?_, ?_, ?_, ?_, ?_, ?_⟩
  · intro it
    simp only [categorize, bucketTable, assignBucket]
    split_ifs <;> decide
  · intro t h
    have h1 := h _ (show ("PERSONAL INFORMATION", ["FILING", "DEPENDENT"]) ∈ bucketTable by decide)
    have h2 := h _ (show ("INCOME", ["WAGES", "INTEREST", "DIVIDEND", "BUSINESS", "CAPITAL", "RENTAL", "TOTAL_INCOME"]) ∈ bucketTable by decide)
    have h3 := h _ (show ("ADJUSTMENTS", ["IRA_DEDUCTION", "STUDENT", "SELF_EMPLOYED", "HEALTH", "ADJUSTMENT", "ADJUSTED_GROSS"]) ∈ bucketTable by decide)
    have h4 := h _ (show ("DEDUCTIONS", ["MEDICAL", "STATE", "TAX", "MORTGAGE", "CHARITABLE", "DEDUCTION"]) ∈ bucketTable by decide)
    have h5 := h _ (show ("TAX CALCULATION", ["TAXABLE", "LIABILITY", "ALTERNATIVE", "CALCULATION"]) ∈ bucketTable by decide)
    have h6 := h _ (show ("CREDITS", ["CREDIT"]) ∈ bucketTable by decide)
    have h7 := h _ (show ("PAYMENTS", ["WITHHELD", "ESTIMATED", "PAYMENT", "REFUND"]) ∈ bucketTable by decide)
    have h8 := h _ (show ("FINAL OUTCOMES", ["TOTAL_TAX", "OVERPAYMENT", "REFUND", "AMOUNT_OWED", "EFFECTIVE", "MARGINAL"]) ∈ bucketTable by decide)
    simp only [categorize, bucketTable, assignBucket, h1, h2, h3, h4, h5, h6, h7, h8]
    simp
  · rw [sortItems_eq]
    unfold mapGroups
    exact map_fst_pair allGroupNames
  · intro n l hmem
    rw [sortItems_eq] at hmem
    simp only [mapGroups, List.mem_map] at hmem
    obtain ⟨a, -, ha⟩ := hmem
    rw [Prod.mk.injEq] at ha
    obtain ⟨rfl, hl⟩ := ha
    exact hl.symm
  · unfold renderedGroups
    rw [sortItems_eq]
    exact mapGroups_filter_fst _ _
  · intro p hp
    unfold renderedGroups at hp
    have := List.of_mem_filter hp
    simpa using this

/-- C4 witness: the categorization theorem applied to the concrete two-record
dataset, discharging the fall-back and bucket-membership hypotheses there. -/
theorem c4_categorization_witness :
    categorize "XYZZY" = "OTHER"
    ∧ [wagesMetric] = c4items.filter (fun it => categorize it.type = "INCOME") := by
  constructor
  · exact (c4_categorization []).2.1 "XYZZY" (by decide)
  · exact (c4_categorization c4items).2.2.2.1 "INCOME" [wagesMetric] (by decide)

/-! # C10 : consequences of the fixed fragment order -/

/-- C10 (amended): a metric whose uppercased identifier contains TAX and
matches no fragment of a bucket before DEDUCTIONS is assigned to DEDUCTIONS;
a metric containing REFUND and matching no fragment of a bucket before
PAYMENTS is assigned to PAYMENTS; and a metric containing TAX or REFUND never
reaches FINAL OUTCOMES (nor OTHER). The claim's unconditional version of the
REFUND half is false: an identifier may also contain a fragment of an earlier
bucket, as TAX_REFUND does. -/
theorem c10_fragment_order (t : String) :
    (strContains (pyUpper t) "TAX" = true →
      (∀ p ∈ bucketTable.take 3, matchesBucket t p.2 = false) →
      categorize t = "DEDUCTIONS")
    ∧ (strContains (pyUpper t) "REFUND" = true →
      (∀ p ∈ bucketTable.take 6, matchesBucket t p.2 = false) →
      categorize t = "PAYMENTS")
    ∧ ((strContains (pyUpper t) "TAX" = true ∨ strContains (pyUpper t) "REFUND" = true) →
      categorize t ≠ "FINAL OUTCOMES" ∧ categorize t ≠ "OTHER") := by
  refine ⟨?_, ?_, ?_⟩
  · intro hT h
    have h1 := h _ (show ("PERSONAL INFORMATION", ["FILING", "DEPENDENT"]) ∈ bucketTable.take 3 by decide)
    have h2 := h _ (show ("INCOME", ["WAGES", "INTEREST", "DIVIDEND", "BUSINESS", "CAPITAL", "RENTAL", "TOTAL_INCOME"]) ∈ bucketTable.take 3 by decide)
    have h3 := h _ (show ("ADJUSTMENTS", ["IRA_DEDUCTION", "STUDENT", "SELF_EMPLOYED", "HEALTH", "ADJUSTMENT", "ADJUSTED_GROSS"]) ∈ bucketTable.take 3 by decide)
    have hd : matchesBucket t ["MEDICAL", "STATE", "TAX", "MORTGAGE", "CHARITABLE", "DEDUCTION"] = true := by
      simp [matchesBucket, hT]
    simp only [categorize, bucketTable, assignBucket, h1, h2, h3, hd]
    simp
  · intro hR h
    have h1 := h _ (show ("PERSONAL INFORMATION", ["FILING", "DEPENDENT"]) ∈ bucketTable.take 6 by decide)
    have h2 := h _ (show ("INCOME", ["WAGES", "INTEREST", "DIVIDEND", "BUSINESS", "CAPITAL", "RENTAL", "TOTAL_INCOME"]) ∈ bucketTable.take 6 by decide)
    have h3 := h _ (show ("ADJUSTMENTS", ["IRA_DEDUCTION", "STUDENT", "SELF_EMPLOYED", "HEALTH", "ADJUSTMENT", "ADJUSTED_GROSS"]) ∈ bucketTable.take 6 by decide)
    have h4 := h _ (show ("DEDUCTIONS", ["MEDICAL", "STATE", "TAX", "MORTGAGE", "CHARITABLE", "DEDUCTION"]) ∈ bucketTable.take 6 by decide)
    have h5 := h _ (show ("TAX CALCULATION", ["TAXABLE", "LIABILITY", "ALTERNATIVE", "CALCULATION"]) ∈ bucketTable.take 6 by decide)
    have h6 := h _ (show ("CREDITS", ["CREDIT"]) ∈ bucketTable.take 6 by decide)
    have hp : matchesBucket t ["WITHHELD", "ESTIMATED", "PAYMENT", "REFUND"] = true := by
      simp [matchesBucket, hR]
    simp only [categorize, bucketTable, assignBucket, h1, h2, h3, h4, h5, h6, hp]
    simp
  · intro h
    rcases h with hT | hR
    · have hd : matchesBucket t ["MEDICAL", "STATE", "TAX", "MORTGAGE", "CHARITABLE", "DEDUCTION"] = true := by
        simp [matchesBucket, hT]
      have hmem := assignBucket_mem_concat t
        [("PERSONAL INFORMATION", ["FILING", "DEPENDENT"]),
         ("INCOME", ["WAGES", "INTEREST", "DIVIDEND", "BUSINESS", "CAPITAL", "RENTAL", "TOTAL_INCOME"]),
         ("ADJUSTMENTS", ["IRA_DEDUCTION", "STUDENT", "SELF_EMPLOYED", "HEALTH", "ADJUSTMENT", "ADJUSTED_GROSS"])]
        [("TAX CALCULATION", ["TAXABLE", "LIABILITY", "ALTERNATIVE", "CALCULATION"]),
         ("CREDITS", ["CREDIT"]),
         ("PAYMENTS", ["WITHHELD", "ESTIMATED", "PAYMENT", "REFUND"]),
         ("FINAL OUTCOMES", ["TOTAL_TAX", "OVERPAYMENT", "REFUND", "AMOUNT_OWED", "EFFECTIVE", "MARGINAL"])]
        "DEDUCTIONS" ["MEDICAL", "STATE", "TAX", "MORTGAGE", "CHARITABLE", "DEDUCTION"] hd
      have hcat : categorize t ∈
          ["PERSONAL INFORMATION", "INCOME", "ADJUSTMENTS", "DEDUCTIONS"] := by
        simpa [categorize, bucketTable] using hmem
      simp only [List.mem_cons, List.not_mem_nil, or_false] at hcat
      rcases hcat with h | h | h | h <;> rw [h] <;> exact ⟨by decide, by decide⟩
    · have hp : matchesBucket t ["WITHHELD", "ESTIMATED", "PAYMENT", "REFUND"] = true := by
        simp [matchesBucket, hR]
      have hmem := assignBucket_mem_concat t
        [("PERSONAL INFORMATION", ["FILING", "DEPENDENT"]),
         ("INCOME", ["WAGES", "INTEREST", "DIVIDEND", "BUSINESS", "CAPITAL", "RENTAL", "TOTAL_INCOME"]),
         ("ADJUSTMENTS", ["IRA_DEDUCTION", "STUDENT", "SELF_EMPLOYED", "HEALTH", "ADJUSTMENT", "ADJUSTED_GROSS"]),
         ("DEDUCTIONS", ["MEDICAL", "STATE", "TAX", "MORTGAGE", "CHARITABLE", "DEDUCTION"]),
         ("TAX CALCULATION", ["TAXABLE", "LIABILITY", "ALTERNATIVE", "CALCULATION"]),
         ("CREDITS", ["CREDIT"])]
        [("FINAL OUTCOMES", ["TOTAL_TAX", "OVERPAYMENT", "REFUND", "AMOUNT_OWED", "EFFECTIVE", "MARGINAL"])]
        "PAYMENTS" ["WITHHELD", "ESTIMATED", "PAYMENT", "REFUND"] hp
      have hcat : categorize t ∈
          ["PERSONAL INFORMATION", "INCOME", "ADJUSTMENTS", "DEDUCTIONS",
           "TAX CALCULATION", "CREDITS", "PAYMENTS"] := by
        simpa [categorize, bucketTable] using hmem
      simp only [List.mem_cons, List.not_mem_nil, or_false] at hcat
      rcases hcat with h | h | h | h | h | h | h <;> rw [h] <;> exact ⟨by decide, by decide⟩

/-- C10 counterexample: TAX_REFUND contains REFUND yet is assigned to
DEDUCTIONS, not PAYMENTS — the DEDUCTIONS fragment TAX matches first, so the
claim's unconditional REFUND-to-PAYMENTS half is false on the code. -/
theorem c10_counterexample :
    strContains (pyUpper "tax_refund") "REFUND" = true
    ∧ categorize "tax_refund" = "DEDUCTIONS"
    ∧ categorize "tax_refund" ≠ "PAYMENTS" := by
  exact ⟨by decide, by decide, by decide⟩

/-- C10 witness: the amended theorem applied to TOTAL_TAX and REFUND,
discharging the no-earlier-fragment hypotheses by evaluation. -/
theorem c10_fragment_order_witness :
    categorize "TOTAL_TAX" = "DEDUCTIONS" ∧ categorize "REFUND" = "PAYMENTS" := by
  constructor
  · exact (c10_fragment_order "TOTAL_TAX").1 (by decide) (by decide)
  · exact (c10_fragment_order "REFUND").2.1 (by decide) (by decide)

/-! # Supporting lemmas for the response validator -/

/-- Reference form of the validation loop's log: the indices of all items
failing the required-key check, in order. -/
def offendersRef (i : Nat) : List JValue → List Nat
  | [] => []
  | it :: rest =>
    if allKeysIn it = some false then i :: offendersRef (i + 1) rest
    else offendersRef (i + 1) rest

lemma scanItems_eq_ref (items : List JValue) : ∀ i,
    scanItems i items =
      if items.any (fun it => (allKeysIn it).isNone) then none
      else some (offendersRef i items) := by
  induction items with
  | nil => intro i; simp [scanItems, offendersRef]
  | cons it rest ih =>
    intro i
    by_cases hany : rest.any (fun x => (allKeysIn x).isNone) = true
    · cases hk : allKeysIn it with
      | none => simp [scanItems, hk]
      | some ok => simp [scanItems, hk, ih (i + 1), hany]
    · simp only [Bool.not_eq_true] at hany
      cases hk : allKeysIn it with
      | none => simp [scanItems, hk]
      | some ok => cases ok <;> simp [scanItems, hk, ih (i + 1), hany, offendersRef]

lemma option_bool_true_iff (o : Option Bool) :
    o = some true ↔ (o ≠ none ∧ o ≠ some false) := by
  cases o with
  | none => simp
  | some b => cases b <;> simp

lemma offendersRef_eq_nil (items : List JValue) : ∀ i,
    offendersRef i items = [] ↔ ∀ it ∈ items, allKeysIn it ≠ some false := by
  induction items with
  | nil => intro i; simp [offendersRef]
  | cons it rest ih =>
    intro i
    by_cases hc : allKeysIn it = some false
    · simp [offendersRef, hc]
    · simp [offendersRef, hc, ih (i + 1)]

lemma scan_nil_iff (items : List JValue) (i : Nat) :
    scanItems i items = some [] ↔ ∀ it ∈ items, allKeysIn it = some true := by
  rw [scanItems_eq_ref]
  by_cases hany : items.any (fun it => (allKeysIn it).isNone) = true
  · rw [if_pos hany]
    constructor
    · intro h; exact Option.noConfusion h
    · intro h
      obtain ⟨it, hmem, hit⟩ := List.any_eq_true.mp hany
      rw [Option.isNone_iff_eq_none] at hit
      rw [h it hmem] at hit
      exact Option.noConfusion hit
  · rw [if_neg hany]
    simp only [Bool.not_eq_true] at hany
    simp only [Option.some.injEq]
    rw [offendersRef_eq_nil]
    have hnone : ∀ it ∈ items, allKeysIn it ≠ none := by
      intro it hmem
      have := List.any_eq_false.mp hany it hmem
      simpa using this
    constructor
    · intro h it hmem
      exact (option_bool_true_iff _).mpr ⟨hnone it hmem, h it hmem⟩
    · intro h it hmem
      exact ((option_bool_true_iff _).mp (h it hmem)).2

lemma offendersRef_mem (items : List JValue) : ∀ (i x : Nat),
    x ∈ offendersRef i items ↔
      ∃ j, ∃ h : j < items.length, x = i + j ∧ allKeysIn (items.get ⟨j, h⟩) = some false := by
  induction items with
  | nil => intro i x; simp [offendersRef]
  | cons it rest ih =>
    intro i x
    simp only [offendersRef]
    by_cases hc : allKeysIn it = some false
    · rw [if_pos hc]
      simp only [List.mem_cons]
      constructor
      · rintro (rfl | hx)
        · exact ⟨0, by simp, by omega, hc⟩
        · obtain ⟨j, hj, hx1, hx2⟩ := (ih (i + 1) x).mp hx
          refine ⟨j + 1, by simpa using Nat.succ_lt_succ hj, by omega, hx2⟩
      · rintro ⟨j, hj, rfl, hcond⟩
        cases j with
        | zero => exact Or.inl (by omega)
        | succ j' =>
          have hj' : j' < rest.length := by simp only [List.length_cons] at hj; omega
          refine Or.inr ((ih (i + 1) _).mpr ⟨j', hj', by omega, hcond⟩)
    · rw [if_neg hc]
      rw [ih (i + 1) x]
      constructor
      · rintro ⟨j, hj, rfl, hcond⟩
        exact ⟨j + 1, by simpa using Nat.succ_lt_succ hj, by omega, hcond⟩
      · rintro ⟨j, hj, rfl, hcond⟩
        cases j with
        | zero => exact absurd hcond hc
        | succ j' =>
          have hj' : j' < rest.length := by simp only [List.length_cons] at hj; omega
          exact ⟨j', hj', by omega, hcond⟩

/-! # C2 : the validator returns data if and only if the response passes every
structural check -/

/-- C2: the processed response is the structured payload together with the
stripped reasoning preamble exactly when a bracket pair is locatable, the
bracketed slice parses, the parse is a non-empty array, and every element
passes the required-key test; in every other case a typed error value is
returned; the no-bracket case yields the format error carrying the raw
response itself when it is at most 200 characters and its 200-character
truncation with an ellipsis marker otherwise; and a syntactically valid empty
array is rejected with the dedicated empty-array error, not returned as data. -/
theorem c2_validator (content : String) :
    (∀ items reasoning,
      processReactResponse content = .ok items reasoning ↔
        (bracketCond content = true
         ∧ jsonParse (bracketSlice content) = some (.arr items)
         ∧ items ≠ []
         ∧ (∀ it ∈ items, allKeysIn it = some true)
         ∧ reasoning = reasoningOf content))
    ∧ ((∀ items reasoning, processReactResponse content ≠ .ok items reasoning) →
        (∃ msg raw, processReactResponse content = .error msg raw)
          ∨ processReactResponse content = .apiError)
    ∧ (bracketCond content = false →
        processReactResponse content =
          .error "Could not find valid JSON array in response" (pyTrunc content)
        ∧ ((pyTrunc content = content ∧ pyLen content ≤ 200)
            ∨ (pyTrunc content = pyTake content 200 ++ "..."
               ∧ pyLen (pyTake content 200) = 200)))
    ∧ (bracketCond content = true → jsonParse (bracketSlice content) = some (.arr []) →
        processReactResponse content =
          .error "Received empty JSON array" (pyTake content 200)) := by
  have htrunc : (pyTrunc content = content ∧ pyLen content ≤ 200)
      ∨ (pyTrunc content = pyTake content 200 ++ "..."
         ∧ pyLen (pyTake content 200) = 200) := by
    by_cases h : pyLen content > 200
    · right
      refine ⟨by simp [pyTrunc, h], ?_⟩
      simp only [pyLen, pyTake] at h ⊢
      show (List.take 200 content.toList).length = 200
      rw [List.length_take]
      omega
    · left
      exact ⟨by simp [pyTrunc, h], by omega⟩
  refine ⟨?_, ?_, ?_, ?_⟩
  · intro items reasoning
    constructor
    · intro h
      unfold processReactResponse at h
      split at h
      · split at h
        · exact absurd h (by simp)
        · split at h
          · split at h
            · exact absurd h (by simp)
            · split at h
              · exact absurd h (by simp)
              · split at h
                · cases h
                  simp_all [scan_nil_iff]
                · exact absurd h (by simp)
          · exact absurd h (by simp)
      · exact absurd h (by simp)
    · rintro ⟨hb, hj, hne, hall, rfl⟩
      have hlen : ¬ items.length = 0 := by
        intro h0
        exact hne (List.length_eq_zero.mp h0)
      have hs : scanItems 0 items = some [] := (scan_nil_iff items 0).mpr hall
      simp [processReactResponse, hb, hj, hlen, hs]
  · intro hne
    cases hres : processReactResponse content with
    | ok items reasoning => exact absurd hres (hne items reasoning)
    | error msg raw => exact Or.inl ⟨msg, raw, rfl⟩
    | apiError => exact Or.inr rfl
  · intro hb
    refine ⟨?_, htrunc⟩
    simp [processReactResponse, hb]
  · intro hb hj
    simp [processReactResponse, hb, hj]

/-- C2 witness: the validator theorem applied to a concrete well-formed
response, a concrete empty-array response, and a concrete bracketless
response, discharging every hypothesis by evaluation. -/
theorem c2_validator_witness :
    processReactResponse c2okContent = .ok [c2okItem] "Reasoning first."
    ∧ processReactResponse "x [] y" =
        .error "Received empty JSON array" (pyTake "x [] y" 200)
    ∧ processReactResponse "no payload" =
        .error "Could not find valid JSON array in response" (pyTrunc "no payload") := by
  refine ⟨?_, ?_, ?_⟩
  · exact ((c2_validator c2okContent).1 [c2okItem] "Reasoning first.").mpr
      ⟨rfl, rfl, by simp, by decide, rfl⟩
  · exact (c2_validator "x [] y").2.2.2 rfl rfl
  · exact ((c2_validator "no payload").2.2.1 rfl).1

/-! # C3 : the validation loop visits every element, but the returned error
carries no element list -/

/-- C3 (amended): when the pipeline reaches the required-field loop, the loop
examines every element — the logged offender list contains exactly the index
of every element failing the key check, not only the first — but the value
returned on failure is the fixed message plus the 200-character response
sample; it does not include the offending elements. -/
theorem c3_scan_completeness (content : String) (items : List JValue) (l : List Nat)
    (hj : jsonParse (bracketSlice content) = some (.arr items))
    (hb : bracketCond content = true)
    (hs : scanItems 0 items = some l) :
    (∀ j (hjl : j < items.length), j ∈ l ↔ allKeysIn (items.get ⟨j, hjl⟩) = some false)
    ∧ (l ≠ [] → processReactResponse content =
        .error "JSON items missing required fields" (pyTake content 200)) := by
  have hlref := scanItems_eq_ref items 0
  rw [hs] at hlref
  by_cases hany : items.any (fun it => (allKeysIn it).isNone) = true
  · rw [if_pos hany] at hlref
    exact absurd hlref (by simp)
  · rw [if_neg hany] at hlref
    have hl : l = offendersRef 0 items := by
      injection hlref
    constructor
    · intro j hjl
      rw [hl, offendersRef_mem]
      constructor
      · rintro ⟨j2, hj2, hje, hcond⟩
        have hjeq : j2 = j := by omega
        subst hjeq
        exact hcond
      · intro hcond
        exact ⟨j, hjl, by omega, hcond⟩
    · intro hne
      have hlen : ¬ items.length = 0 := by
        intro h0
        rw [List.length_eq_zero] at h0
        subst h0
        simp [scanItems] at hs
        exact hne hs
      have hoff : ¬ l.isEmpty = true := by
        cases l with
        | nil => exact absurd rfl hne
        | cons a t => simp
      simp [processReactResponse, hb, hj, hlen, hs, hoff]

set_option maxRecDepth 100000 in
set_option maxHeartbeats 2000000 in
/-- C3 counterexample: two responses that share their first 200 characters but
have different offender sets (one offending element versus two) produce the
very same error value — so the returned error cannot be listing every
offending element, refuting the claim's second half. -/
theorem c3_counterexample :
    responseOffenders c3inputOne = some [0]
    ∧ responseOffenders c3inputTwo = some [0, 1]
    ∧ processReactResponse c3inputOne = processReactResponse c3inputTwo
    ∧ processReactResponse c3inputOne =
        .error "JSON items missing required fields" fillerA :=
  ⟨rfl, rfl, rfl, rfl⟩

set_option maxRecDepth 100000 in
set_option maxHeartbeats 2000000 in
/-- C3 witness: the completeness theorem applied to the concrete one-offender
response, discharging its hypotheses by evaluation. -/
theorem c3_scan_completeness_witness :
    processReactResponse c3inputOne =
      .error "JSON items missing required fields" (pyTake c3inputOne 200)
    ∧ (0 ∈ [0] ↔ allKeysIn (JValue.obj [("type", .num (.int 1))]) = some false) := by
  have h := c3_scan_completeness c3inputOne [JValue.obj [("type", .num (.int 1))]] [0] rfl rfl rfl
  exact ⟨h.2 (by simp), h.1 0 (by decide)⟩

/-! # Supporting lemmas for the ingestion paths -/

lemma process_ok_parse (content : String) (items : List JValue) (reasoning : String)
    (h : processReactResponse content = .ok items reasoning) :
    jsonParse (bracketSlice content) = some (.arr items)
    ∧ reasoning = reasoningOf content := by
  unfold processReactResponse at h
  split at h
  · split at h
    · exact absurd h (by simp)
    · split at h
      · split at h
        · exact absurd h (by simp)
        · split at h
          · exact absurd h (by simp)
          · split at h
            · cases h
              exact ⟨by assumption, rfl⟩
            · exact absurd h (by simp)
      · exact absurd h (by simp)
  · exact absurd h (by simp)

lemma ingest_ok_parse (content : String) (v : JValue)
    (h : ingestComparison content = .ok v) :
    jsonParse (pySlice content (pyFind content lbraceChar)
      (pyRfind content rbraceChar + 1)) = some v := by
  simp only [ingestComparison] at h
  split at h
  · split at h
    · cases h
      exact (by assumption)
    · exact absurd h (by simp)
  · exact absurd h (by simp)

/-! # C1 : the difference field is taken from the model verbatim, never
recomputed -/

/-- C1 (amended): whenever the extractor-response validator or the
comparison-engine ingestion returns structured data, the returned value is
exactly the JSON parse of the bracketed slice of the raw response — the
code validates the presence of the difference key but returns the
model-supplied difference value verbatim, without recomputing it from the
year values. -/
theorem c1_difference_not_recomputed (content : String) :
    (∀ items reasoning, processReactResponse content = .ok items reasoning →
        jsonParse (bracketSlice content) = some (.arr items))
    ∧ (∀ v, ingestComparison content = .ok v →
        jsonParse (pySlice content (pyFind content lbraceChar)
          (pyRfind content rbraceChar + 1)) = some v) := by
  constructor
  · intro items reasoning h
    exact (process_ok_parse content items reasoning h).1
  · intro v h
    exact ingest_ok_parse content v h

/-- C1 counterexample: a model payload whose difference label is 99 while the
year values are 1 and 2 is accepted and returned unchanged by both ingestion
paths, although 99 is not 2 - 1 — the invariant of the claim is not enforced
by the engine. -/
theorem c1_counterexample :
    ingestComparison c1reportContent = .ok c1payload
    ∧ JValue.lookup "key_metrics" c1payload = some (.arr [c1metric])
    ∧ JValue.lookup "difference" c1metric = some (.num (.int 99))
    ∧ JValue.lookup "previous_year" c1metric = some (.num (.int 1))
    ∧ JValue.lookup "current_year" c1metric = some (.num (.int 2))
    ∧ (JNum.int 99).toRat ≠ (JNum.int 2).toRat - (JNum.int 1).toRat
    ∧ processReactResponse c1reactContent = .ok [c1reactItem] "note"
    ∧ JValue.lookup "difference" c1reactItem = some (.num (.int 99)) := by
  refine ⟨rfl, rfl, rfl, rfl, rfl, ?_, rfl, rfl⟩
  simp [JNum.toRat]
  norm_num

/-- C1 witness: the verbatim-return theorem applied to the concrete
inconsistent payload, discharging its hypothesis by evaluation. -/
theorem c1_difference_not_recomputed_witness :
    jsonParse (pySlice c1reportContent (pyFind c1reportContent lbraceChar)
      (pyRfind c1reportContent rbraceChar + 1)) = some c1payload :=
  (c1_difference_not_recomputed c1reportContent).2 c1payload rfl

/-! # C5 : output generation is not atomic across the three artifacts -/

/-- C5 (amended): a dataset failing validation produces no artifacts at all,
and a fully successful run writes exactly the three artifacts; but when a
later write step fails, the artifacts already written stay on disk — a
spreadsheet failure retains the JSON record, and a document failure retains
the JSON record and the spreadsheet. The all-or-nothing form of the claim is
false. -/
theorem c5_outputs_not_atomic (input : JValue) (ts : String) (excelOk pdfOk : Bool) :
    (∀ msg, validateDataset input = some msg →
        generateOutputs input ts excelOk pdfOk = ([], none))
    ∧ (validateDataset input = none → excelOk = true → pdfOk = true →
        generateOutputs input ts excelOk pdfOk =
          (["outputs/output_" ++ ts ++ ".json",
            "outputs/summary_comparison_" ++ ts ++ ".xlsx",
            "outputs/tax_report_" ++ ts ++ ".pdf"],
           some ["outputs/output_" ++ ts ++ ".json",
                 "outputs/summary_comparison_" ++ ts ++ ".xlsx",
                 "outputs/tax_report_" ++ ts ++ ".pdf"]))
    ∧ (validateDataset input = none → excelOk = false →
        generateOutputs input ts excelOk pdfOk =
          (["outputs/output_" ++ ts ++ ".json"], none))
    ∧ (validateDataset input = none → excelOk = true → pdfOk = false →
        generateOutputs input ts excelOk pdfOk =
          (["outputs/output_" ++ ts ++ ".json",
            "outputs/summary_comparison_" ++ ts ++ ".xlsx"], none)) := by
  refine ⟨?_, ?_, ?_, ?_⟩
  · intro msg hv
    simp [generateOutputs, hv]
  · intro hv he hp
    subst he; subst hp
    simp [generateOutputs, hv]
  · intro hv he
    subst he
    simp [generateOutputs, hv]
  · intro hv he hp
    subst he; subst hp
    simp [generateOutputs, hv]

/-- C5 counterexample: on a valid dataset with a failing document step the
function raises, yet the JSON record and the spreadsheet remain on disk —
partial artifacts are retained, refuting atomicity. -/
theorem c5_counterexample :
    (generateOutputs validDataset "t" true false).2 = none
    ∧ (generateOutputs validDataset "t" true false).1 =
        ["outputs/output_t.json", "outputs/summary_comparison_t.xlsx"]
    ∧ (generateOutputs validDataset "t" true false).1 ≠ [] := by
  refine ⟨rfl, rfl, by decide⟩

/-- C5 witness: the staged-write theorem applied to the concrete valid
dataset, discharging its hypotheses by evaluation. -/
theorem c5_outputs_not_atomic_witness :
    generateOutputs validDataset "t" true true =
      (["outputs/output_t.json", "outputs/summary_comparison_t.xlsx",
        "outputs/tax_report_t.pdf"],
       some ["outputs/output_t.json", "outputs/summary_comparison_t.xlsx",
             "outputs/tax_report_t.pdf"]) :=
  (c5_outputs_not_atomic validDataset "t" true true).2.1 rfl rfl rfl

/-! # C6 : the temporary file survives a failed extraction -/

/-- C6 (amended): the temporary file written while parsing a PDF or DOCX
source is removed exactly when extraction succeeds; when text extraction
raises, the handler returns an error dictionary and the temporary file is
left on disk — deletion is not unconditional as the claim states. -/
theorem c6_temp_file (pages : Option (List String))
    (doc : Option (List String × List (List (List String)))) :
    ((extractTaxDataFromPdf pages).1 = false ↔ pages ≠ none)
    ∧ ((extractTaxDataFromDocx doc).1 = false ↔ doc ≠ none)
    ∧ (pages = none → extractTaxDataFromPdf pages = (true, .error))
    ∧ (doc = none → extractTaxDataFromDocx doc = (true, .error)) := by
  refine ⟨?_, ?_, ?_, ?_⟩
  · cases pages <;> simp [extractTaxDataFromPdf]
  · cases doc <;> simp [extractTaxDataFromDocx]
  · intro h; subst h; rfl
  · intro h; subst h; rfl

/-- C6 counterexample: a failing extraction leaves the temporary file on disk
for both document kinds, refuting deletion regardless of success or failure. -/
theorem c6_counterexample :
    (extractTaxDataFromPdf none).1 = true
    ∧ (extractTaxDataFromDocx none).1 = true :=
  ⟨rfl, rfl⟩

/-- C6 witness: the removal theorem applied to a concrete successful
extraction and a concrete failing one. -/
theorem c6_temp_file_witness :
    (extractTaxDataFromPdf (some ["page one"])).1 = false
    ∧ extractTaxDataFromPdf none = (true, .error) := by
  constructor
  · exact ((c6_temp_file (some ["page one"]) none).1).mpr (by simp)
  · exact (c6_temp_file none none).2.2.1 rfl

/-! # C7 : rate auto-scaling exists only in the app-level display -/

/-- C7 (amended): the app-level rate display auto-detects the form of the
value (fractions below one are scaled by 100, values of one or more are
shown as is) and renders two decimals, so 0.15 and 15 both render as 15.00
percent there; but the comparison-report renderer renders rate-labelled
values with two decimals and no scaling at all, so the claim's universal
auto-scaling is false for that renderer. -/
theorem c7_rate_scaling :
    appRateDisplay (.dec 15 (-2)) = "15.00%"
    ∧ appRateDisplay (.int 15) = "15.00%"
    ∧ (∀ rate : JNum, rate.ltInt 1 = true → appRateDisplay rate = fmt2 rate.mul100 ++ "%")
    ∧ (∀ rate : JNum, rate.ltInt 1 = false → appRateDisplay rate = fmt2 rate ++ "%")
    ∧ (∀ label v, labelIsRate label = true → reportValueCell label v = fmt2 v ++ "%") := by
  refine ⟨rfl, rfl, ?_, ?_, ?_⟩
  · intro rate h
    simp [appRateDisplay, h]
  · intro rate h
    simp [appRateDisplay, h]
  · intro label v h
    simp [reportValueCell, h]

/-- C7 counterexample: in the comparison report a rate-labelled raw value of
0.15 renders as 0.15 percent, not 15.00 percent — fractional form is not
scaled there. -/
theorem c7_counterexample :
    reportValueCell "Effective Tax Rate" (.dec 15 (-2)) = "0.15%"
    ∧ reportValueCell "Effective Tax Rate" (.dec 15 (-2)) ≠ "15.00%" := by
  refine ⟨rfl, by decide⟩

/-- C7 witness: the scaling theorem applied to concrete fractional and
percentage-point rates. -/
theorem c7_rate_scaling_witness :
    appRateDisplay (.dec 5 (-1)) = fmt2 (JNum.dec 5 (-1)).mul100 ++ "%"
    ∧ reportValueCell "Marginal Rate" (.int 22) = fmt2 (JNum.int 22) ++ "%" := by
  constructor
  · exact c7_rate_scaling.2.2.1 (.dec 5 (-1)) rfl
  · exact c7_rate_scaling.2.2.2.2 "Marginal Rate" (.int 22) rfl

/-! # C8 : delta sign and color; polarity only in the comparison report -/

lemma jnum_not_pos_and_neg (d : JNum) : ¬(d.isPos = true ∧ d.isNeg = true) := by
  cases d <;> simp [JNum.isPos, JNum.isNeg] <;> omega

/-- C8 (amended): the comparison-report renderer implements the
polarity-dependent coloring — a delta is green exactly when it is favorable
for the metric's polarity (higher-better unless the label mentions tax or
liability) and red exactly in the opposite nonzero cases — and its delta text
carries an explicit plus sign for positive deltas and a minus sign inside the
formatted number for negative ones. The summary-PDF renderer of the formatter
module, however, colors by sign alone, green for every positive delta and red
for every negative one, regardless of metric type, so the claim's universal
polarity-dependence is false there. -/
theorem c8_polarity (label : String) (d : JNum) :
    (reportDiffColor label d = .green ↔
      ((d.isPos = true ∧ betterWhenHigher label = true)
        ∨ (d.isNeg = true ∧ betterWhenHigher label = false)))
    ∧ (reportDiffColor label d = .red ↔
      ((d.isNeg = true ∧ betterWhenHigher label = true)
        ∨ (d.isPos = true ∧ betterWhenHigher label = false)))
    ∧ (d.isPos = true → reportDiffText label d =
        "+" ++ (if labelIsRate label then fmt2 d ++ "%" else "$" ++ fmtComma2 d))
    ∧ (d.isNeg = true → reportDiffText label d =
        (if labelIsRate label then fmt2 d ++ "%" else "$" ++ fmtComma2 d)
        ∧ fmt2 d = "-" ++ (natToStr ((roundHundredths d).natAbs / 100) ++ "."
            ++ twoDigits (roundHundredths d).natAbs)
        ∧ fmtComma2 d = "-" ++ (commaNat ((roundHundredths d).natAbs / 100) ++ "."
            ++ twoDigits (roundHundredths d).natAbs))
    ∧ (formatterDiffCell d).1 =
        (if d.isPos = true then .green else if d.isNeg = true then .red else .black) := by
  have hex := jnum_not_pos_and_neg d
  refine ⟨?_, ?_, ?_, ?_, ?_⟩
  · cases hp : d.isPos <;> cases hn : d.isNeg <;>
      cases hbw : betterWhenHigher label <;>
      simp_all [reportDiffColor]
  · cases hp : d.isPos <;> cases hn : d.isNeg <;>
      cases hbw : betterWhenHigher label <;>
      simp_all [reportDiffColor]
  · intro hp
    simp only [reportDiffText, hp, if_true]
    split <;> rfl
  · intro hn
    have hp : d.isPos = false := by
      cases hp : d.isPos
      · rfl
      · exact absurd ⟨hp, hn⟩ hex
    refine ⟨?_, ?_, ?_⟩
    · simp [reportDiffText, hp]
    · simp [fmt2, hn]
    · simp [fmtComma2, hn]
  · cases hp : d.isPos <;> cases hn : d.isNeg <;>
      simp_all [formatterDiffCell]

/-- C8 counterexample: a positive 500 delta on Total Tax is unfavorable by the
polarity table (the comparison report renders it red), yet the summary-PDF
renderer colors the same delta green; and a zero delta is rendered without
any sign. The claim's universal polarity-dependent coloring is therefore
false for the formatter renderer. -/
theorem c8_counterexample :
    betterWhenHigher "Total Tax" = false
    ∧ reportDiffColor "Total Tax" (.int 500) = .red
    ∧ (formatterDiffCell (.int 500)).1 = .green
    ∧ (formatterDiffCell (.int 500)).2 = "+$500"
    ∧ (formatterDiffCell (.int 0)).2 = "$0" := by
  refine ⟨by decide, rfl, rfl, rfl, rfl⟩

/-- C8 witness: the polarity theorem applied to a concrete income-like metric
and positive delta. -/
theorem c8_polarity_witness :
    reportDiffText "Total Income" (.int 500) =
      "+" ++ (if labelIsRate "Total Income" then fmt2 (JNum.int 500) ++ "%"
              else "$" ++ fmtComma2 (JNum.int 500))
    ∧ reportDiffColor "Total Income" (.int 500) = .green := by
  constructor
  · exact (c8_polarity "Total Income" (.int 500)).2.2.1 rfl
  · exact ((c8_polarity "Total Income" (.int 500)).1).mpr (Or.inl ⟨rfl, by decide⟩)

/-! # C9 : the premium backfill triggers exactly on the marker, but can
surface the placeholder through its fallbacks -/

/-- C9 (amended): the backfill pass runs exactly when the case-insensitive
marker occurs in the serialized response, and a marker-free response is
returned unchanged with no backfill call; on the backfill path, a parsed
model object is returned with the disclosure note set, but when the OpenAI
credential is missing, the model call fails, or the model payload is
unparsable, the original placeholder-bearing response is returned unchanged —
so the placeholder can reach the consumer, contrary to the claim. -/
theorem c9_backfill (taxResult : JValue) (keyPresent : Bool)
    (modelContent : Option String) :
    ((calculateTaxDispatch taxResult keyPresent modelContent).1 = true ↔
      strContains (pyLower (dumps taxResult)) premiumMarker = true)
    ∧ (containsPremiumFields taxResult = false →
        calculateTaxDispatch taxResult keyPresent modelContent = (false, taxResult))
    ∧ (containsPremiumFields taxResult = true →
        calculateTaxDispatch taxResult keyPresent modelContent =
          (true, enhanceWithOpenai taxResult keyPresent modelContent))
    ∧ (keyPresent = false → enhanceWithOpenai taxResult keyPresent modelContent = taxResult)
    ∧ (∀ content fs, keyPresent = true → modelContent = some content →
        (pyFind content lbraceChar ≥ 0
          && pyRfind content rbraceChar + 1 > pyFind content lbraceChar) = true →
        jsonParse (pySlice content (pyFind content lbraceChar)
          (pyRfind content rbraceChar + 1)) = some (.obj fs) →
        enhanceWithOpenai taxResult keyPresent modelContent =
          .obj (setKey fs "note" (.str premiumNote))) := by
  refine ⟨?_, ?_, ?_, ?_, ?_⟩
  · simp only [calculateTaxDispatch, containsPremiumFields]
    by_cases h : strContains (pyLower (dumps taxResult)) premiumMarker = true
    · simp [h]
    · simp [h]
  · intro hc
    simp [calculateTaxDispatch, hc]
  · intro hc
    simp [calculateTaxDispatch, hc]
  · intro hk
    subst hk
    simp [enhanceWithOpenai]
  · intro content fs hk hm hbr hp
    subst hk
    subst hm
    simp [enhanceWithOpenai, hbr, hp]

/-- C9 counterexample: a response carrying the placeholder triggers the
backfill, but with the OpenAI credential missing the dispatch returns the
original response, whose serialization still contains the placeholder — it
is surfaced to the consumer. -/
theorem c9_counterexample :
    containsPremiumFields premiumResponse = true
    ∧ calculateTaxDispatch premiumResponse false none = (true, premiumResponse)
    ∧ strContains
        (pyLower (dumps (calculateTaxDispatch premiumResponse false none).2))
        premiumMarker = true := by
  refine ⟨by decide, rfl, by decide⟩

/-- C9 witness: the backfill theorem applied to a marker-free response and to
a successful enhancement of the placeholder response. -/
theorem c9_backfill_witness :
    calculateTaxDispatch (.obj [("income", .num (.int 5))]) true none =
      (false, .obj [("income", .num (.int 5))])
    ∧ enhanceWithOpenai premiumResponse true
        (some "\x7b\"federal_taxes_owed\": 1200\x7d") =
      .obj (setKey [("federal_taxes_owed", .num (.int 1200))] "note"
        (.str premiumNote)) := by
  constructor
  · exact (c9_backfill (.obj [("income", .num (.int 5))]) true none).2.1 (by decide)
  · exact (c9_backfill premiumResponse true
      (some "\x7b\"federal_taxes_owed\": 1200\x7d")).2.2.2.2
      "\x7b\"federal_taxes_owed\": 1200\x7d"
      [("federal_taxes_owed", .num (.int 1200))] rfl rfl rfl rfl
